import Mathlib

/-!
Shallow embedding of the warthog load-balancer client (src/warthog/client.py,
src/warthog/core.py) and proofs of its specified properties.

Remote interactions are modelled by oracles: a function from the invocation
index to the outcome of that invocation. Python exceptions are modelled with
`Except`. Each embedded client operation additionally returns the count of
invocations it performed, or a trace of the commands it issued, so that
sequencing and counting properties can be stated.
-/

namespace Warthog

/-- Embeds core.py STATUS_ENABLED. -/
def STATUS_ENABLED : String := "enabled"

/-- Embeds core.py STATUS_DISABLED. -/
def STATUS_DISABLED : String := "disabled"

/-- Modelled from the spec: the node-status enumeration has a third value,
down, referenced by client.py docstrings; the constant itself is not defined
in the source files under review. -/
def STATUS_DOWN : String := "down"

/-- Embeds the data carried by warthog API errors (api_code, api_msg) as used
by client.py in the transient-retry wrapper. -/
structure ApiError where
  code : Nat
  msg : String
deriving DecidableEq, Repr

/-- Embeds WarthogClient._try_repeatedly from client.py, generalized over the
running retry counter. `isTransient` models membership of an error code in
warthog.core.TRANSIENT_ERRORS, and `outcomes k` is the result of the k-th
invocation of the wrapped method. Returns the propagated result together with
the number of invocations performed. The source loop: invoke the method; on a
WarthogApiError whose code is not transient or when retries have reached
max_retries, re-raise; otherwise sleep, increment retries and loop. -/
def try_from {α : Type} (isTransient : Nat → Bool)
    (outcomes : Nat → Except ApiError α)
    (max_retries retries : Nat) : Except ApiError α × Nat :=
  match outcomes retries with
  | .ok a => (.ok a, retries + 1)
  | .error e =>
    if h : isTransient e.code = false ∨ max_retries ≤ retries then
      (.error e, retries + 1)
    else
      try_from isTransient outcomes max_retries (retries + 1)
termination_by max_retries - retries
decreasing_by
  rcases not_or.mp h with ⟨-, _hlt⟩
  omega

/-- Embeds WarthogClient._try_repeatedly: the wrapper started with a retry
counter of zero. -/
def try_repeatedly {α : Type} (isTransient : Nat → Bool)
    (outcomes : Nat → Except ApiError α)
    (max_retries : Nat) : Except ApiError α × Nat :=
  try_from isTransient outcomes max_retries 0

/-- Embeds WarthogClient._wait_for_connections from client.py, generalized
over the running retry counter. `conn_method k` is the result of the k-th
connection-count read. Returns the outcome (an error only if a read raises)
together with the total number of reads performed. -/
def wait_for_connections (conn_method : Nat → Except ApiError Nat)
    (max_retries retries : Nat) : Except ApiError Unit × Nat :=
  if _h : retries < max_retries then
    match conn_method retries with
    | .error e => (.error e, retries + 1)
    | .ok conns =>
      if conns = 0 then (.ok (), retries + 1)
      else wait_for_connections conn_method max_retries (retries + 1)
  else (.ok (), retries)
termination_by max_retries - retries
decreasing_by omega

/-- Embeds WarthogClient._wait_for_enable from client.py, generalized over
the running retry counter. `status_method k` is the result of the k-th status
read; the loop breaks when the status equals STATUS_ENABLED. -/
def wait_for_enable (status_method : Nat → Except ApiError String)
    (max_retries retries : Nat) : Except ApiError Unit × Nat :=
  if _h : retries < max_retries then
    match status_method retries with
    | .error e => (.error e, retries + 1)
    | .ok status =>
      if status == STATUS_ENABLED then (.ok (), retries + 1)
      else wait_for_enable status_method max_retries (retries + 1)
  else (.ok (), retries)
termination_by max_retries - retries
decreasing_by omega

/-- Command-level events issued against the load balancer during a client
operation: each constructor marks one send of the corresponding command. -/
inductive Event where
  | sessionStart
  | sessionEnd
  | disableAttempt
  | enableAttempt
  | connRead
  | statusRead
deriving DecidableEq, Repr

/-- Embeds session_context from client.py together with the semantics of the
with-statement it is used under. `startResult` is the outcome of the
session-start command, `endResult` the outcome of the session-end command,
and `body` the caller block run with the yielded session ID, which returns
its own outcome and trace of issued commands. The source sets session to
None, sends session-start inside a try block, yields, and in the finally
block sends session-end only when session is not None; a Python exception
raised in a finally block replaces any in-flight exception. -/
def session_wrap {α : Type} (startResult : Except ApiError String)
    (endResult : Except ApiError Bool)
    (body : String → Except ApiError α × List Event) :
    Except ApiError α × List Event :=
  match startResult with
  | .error e => (.error e, [.sessionStart])
  | .ok session =>
    let r := body session
    let trace := Event.sessionStart :: r.2 ++ [Event.sessionEnd]
    match endResult with
    | .error e2 => (.error e2, trace)
    | .ok _ => (r.1, trace)

/-- Embeds the body of WarthogClient.disable_server from client.py, run
inside the session context: retry-on-transient around the disable command,
then the wait-for-zero-connections loop over the active-connections command,
then one status read compared against STATUS_DISABLED. Oracles give the
outcome of each command invocation; the trace records every command sent. -/
def disable_server_body (isTransient : Nat → Bool)
    (disableOutcomes : Nat → Except ApiError Bool)
    (connReads : Nat → Except ApiError Nat)
    (statusResult : Except ApiError String)
    (max_retries : Nat) : Except ApiError Bool × List Event :=
  let d := try_repeatedly isTransient disableOutcomes max_retries
  let dtrace := List.replicate d.2 Event.disableAttempt
  match d.1 with
  | .error e => (.error e, dtrace)
  | .ok _ =>
    let w := wait_for_connections connReads max_retries 0
    let wtrace := dtrace ++ List.replicate w.2 Event.connRead
    match w.1 with
    | .error e => (.error e, wtrace)
    | .ok _ =>
      match statusResult with
      | .error e => (.error e, wtrace ++ [Event.statusRead])
      | .ok s => (.ok (STATUS_DISABLED == s), wtrace ++ [Event.statusRead])

/-- Embeds WarthogClient.disable_server from client.py: the disable body run
under the session context. -/
def disable_server (isTransient : Nat → Bool)
    (startResult : Except ApiError String)
    (endResult : Except ApiError Bool)
    (disableOutcomes : Nat → Except ApiError Bool)
    (connReads : Nat → Except ApiError Nat)
    (statusResult : Except ApiError String)
    (max_retries : Nat) : Except ApiError Bool × List Event :=
  session_wrap startResult endResult
    (fun _ => disable_server_body isTransient disableOutcomes connReads
      statusResult max_retries)

/-- Client-operation-level events of the disabled-node scope helper: the
entry status check, the disable and enable client operations, and the run of
the caller scope body. -/
inductive CtxEvent where
  | statusCheck
  | disableOp
  | bodyRun
  | enableOp
deriving DecidableEq, Repr

/-- Embeds disabled_node_context from client.py together with the semantics
of the with-statement it is used under. The helper reads the status, sets
is_in_lb to whether it equals STATUS_ENABLED, disables the server only when
is_in_lb, yields to the caller body, and re-enables only when is_in_lb. A
generator-based context manager does not catch an exception thrown in at the
yield point, so a failing body skips the enable step and the exception
propagates; likewise a failure of the entry disable operation prevents the
body from running. `entryStatus` is the status observed by the entry check,
which is assumed to have returned. -/
def disabled_node_context (entryStatus : String)
    (disableResult enableResult : Except ApiError Bool)
    (bodyResult : Except ApiError Unit) :
    Except ApiError Unit × List CtxEvent :=
  let is_in_lb := entryStatus == STATUS_ENABLED
  if is_in_lb then
    match disableResult with
    | .error e => (.error e, [.statusCheck, .disableOp])
    | .ok _ =>
      match bodyResult with
      | .error e => (.error e, [.statusCheck, .disableOp, .bodyRun])
      | .ok _ =>
        match enableResult with
        | .error e => (.error e, [.statusCheck, .disableOp, .bodyRun, .enableOp])
        | .ok _ => (.ok (), [.statusCheck, .disableOp, .bodyRun, .enableOp])
  else
    match bodyResult with
    | .error e => (.error e, [.statusCheck, .bodyRun])
    | .ok _ => (.ok (), [.statusCheck, .bodyRun])

/-- Embeds the failure envelope of a remote response as read by core.py:
response.status plus the err.msg and err.code fields consulted when the
status is fail. -/
structure RespEnvelope where
  status : String
  errMsg : String
  errCode : Nat
deriving DecidableEq, Repr

/-- Embeds extract_error_message from core.py: when the envelope status is
fail, return the stripped message and the code; otherwise raise ValueError,
the malformed-response condition, modelled as the error case. -/
def extract_error_message (response : RespEnvelope) :
    Except Unit (String × Nat) :=
  if response.status == "fail" then
    .ok (response.errMsg.trim, response.errCode)
  else
    .error ()

/-- Embeds the JSON body parsed by NodeStatusCommand.send in core.py: an
optional top-level server object carrying a boolean status field, and an
optional top-level response envelope. -/
structure NodeStatusResponse where
  server : Option Bool
  response : Option RespEnvelope
deriving DecidableEq, Repr

/-- Failure modes of NodeStatusCommand.send: the WarthogNodeStatusError
raised with the extracted remote message and code, the ValueError raised by
extract_error_message on a response that matches neither envelope shape, and
the KeyError raised when the response key itself is missing. -/
inductive StatusSendError where
  | nodeStatusFailure (msg : String) (code : Nat)
  | malformedResponse
  | keyError
deriving DecidableEq, Repr

/-- Embeds NodeStatusCommand.send from core.py: when the server key is
present, return STATUS_ENABLED if its status field is truthy and
STATUS_DISABLED otherwise; when it is absent, extract the error message from
the response envelope and raise WarthogNodeStatusError with it. -/
def node_status_send (json : NodeStatusResponse) :
    Except StatusSendError String :=
  match json.server with
  | some status =>
    if status then .ok STATUS_ENABLED else .ok STATUS_DISABLED
  | none =>
    match json.response with
    | none => .error .keyError
    | some resp =>
      match extract_error_message resp with
      | .ok (msg, code) => .error (.nodeStatusFailure msg code)
      | .error _ => .error .malformedResponse

/-- Embeds the fixed remote action identifier shared by the enable and
disable commands in core.py (ACTION_ENABLE = ACTION_DISABLE =
slb.server.update). -/
def ACTION_ENABLE : String := "slb.server.update"

/-- Embeds get_base_url from core.py. The source delegates to the external
urlparse.urljoin; it is modelled as appending the fixed versioned REST path
to the scheme-host. Both the enable and the disable command compute their
URL by this one function applied to the same scheme-host. -/
def get_base_url (scheme_host : String) : String :=
  scheme_host ++ "/services/rest/v2/"

/-- Embeds get_base_query_params from core.py: the format and method
parameters, plus the session_id parameter when a session is given. Query
parameter values are modelled as the strings they are rendered to. -/
def get_base_query_params (action : String) (session_id : Option String) :
    List (String × String) :=
  [("format", "json"), ("method", action)] ++
    (match session_id with
     | some sid => [("session_id", sid)]
     | none => [])

/-- Embeds the HTTP request a command hands to the transport: the URL, the
HTTP method, and the query parameters in insertion order. -/
structure HttpRequest where
  url : String
  httpMethod : String
  params : List (String × String)
deriving DecidableEq, Repr

/-- Embeds the request built by NodeEnableCommand.send in core.py: base URL,
base query parameters for the shared update action with the session, then
the name, server and status parameters with status 1, posted to the
transport. -/
def node_enable_request (scheme_host session_id server : String) :
    HttpRequest :=
  { url := get_base_url scheme_host,
    httpMethod := "POST",
    params := get_base_query_params ACTION_ENABLE (some session_id) ++
      [("name", server), ("server", server), ("status", "1")] }

/-- Embeds the request built by NodeDisableCommand.send in core.py: it uses
the same base URL, the same shared update action and base parameters, the
same name and server parameters, and status 0, posted to the transport. -/
def node_disable_request (scheme_host session_id server : String) :
    HttpRequest :=
  { url := get_base_url scheme_host,
    httpMethod := "POST",
    params := get_base_query_params ACTION_ENABLE (some session_id) ++
      [("name", server), ("server", server), ("status", "0")] }

/-- Concrete disable-command oracle used to witness the retry wrapper: one
transient failure followed by success. -/
def transientThenOk : Nat → Except ApiError Bool :=
  fun k => if k = 0 then .error ⟨1000, "retry"⟩ else .ok true

/-- Concrete connection-count oracle used in witnesses: three, one, then
zero connections. -/
def drainingConns : Nat → Except ApiError Nat :=
  fun k => .ok (3 - k)

section Lemmas

lemma try_from_ok_at {α : Type} {isTransient : Nat → Bool}
    {outcomes : Nat → Except ApiError α} {max_retries k : Nat} {a : α}
    (hk : outcomes k = .ok a) :
    try_from isTransient outcomes max_retries k = (.ok a, k + 1) := by
  rw [try_from]
  simp only [hk]

lemma try_from_error_at {α : Type} {isTransient : Nat → Bool}
    {outcomes : Nat → Except ApiError α} {max_retries k : Nat} {e : ApiError}
    (hk : outcomes k = .error e)
    (hcond : isTransient e.code = false ∨ max_retries ≤ k) :
    try_from isTransient outcomes max_retries k = (.error e, k + 1) := by
  rw [try_from]
  simp only [hk]
  rw [dif_pos hcond]

lemma try_from_step {α : Type} {isTransient : Nat → Bool}
    {outcomes : Nat → Except ApiError α} {max_retries k : Nat} {e : ApiError}
    (hk : outcomes k = .error e)
    (hcond : ¬(isTransient e.code = false ∨ max_retries ≤ k)) :
    try_from isTransient outcomes max_retries k =
      try_from isTransient outcomes max_retries (k + 1) := by
  rw [try_from]
  simp only [hk]
  rw [dif_neg hcond]

lemma try_from_reach {α : Type} (isTransient : Nat → Bool)
    (outcomes : Nat → Except ApiError α) (max_retries : Nat) :
    ∀ (n r k : Nat), k - r ≤ n → r ≤ k → k ≤ max_retries →
      (∀ j, r ≤ j → j < k →
        ∃ e, outcomes j = .error e ∧ isTransient e.code = true) →
      try_from isTransient outcomes max_retries r =
        try_from isTransient outcomes max_retries k := by
  intro n
  induction n with
  | zero =>
    intro r k h1 h2 _ _
    have hrk : r = k := by omega
    rw [hrk]
  | succ n ih =>
    intro r k h1 h2 h3 h4
    rcases Nat.eq_or_lt_of_le h2 with heq | hlt
    · rw [heq]
    · obtain ⟨e, he, ht⟩ := h4 r le_rfl hlt
      have hcond : ¬(isTransient e.code = false ∨ max_retries ≤ r) := by
        rintro (hc | hc)
        · rw [ht] at hc
          exact Bool.noConfusion hc
        · omega
      rw [try_from_step he hcond]
      exact ih (r + 1) k (by omega) hlt h3 (fun j hj hjk => h4 j (by omega) hjk)

lemma try_from_count_at_budget {α : Type} {isTransient : Nat → Bool}
    {outcomes : Nat → Except ApiError α} {max_retries : Nat} :
    (try_from isTransient outcomes max_retries max_retries).2 =
      max_retries + 1 := by
  rcases h : outcomes max_retries with e | a
  · rw [try_from_error_at h (Or.inr le_rfl)]
  · rw [try_from_ok_at h]

lemma wait_conn_exhaust {conn_method : Nat → Except ApiError Nat}
    {max_retries retries : Nat} (h : ¬ retries < max_retries) :
    wait_for_connections conn_method max_retries retries = (.ok (), retries) := by
  rw [wait_for_connections]
  rw [dif_neg h]

lemma wait_conn_error {conn_method : Nat → Except ApiError Nat}
    {max_retries retries : Nat} {e : ApiError} (h : retries < max_retries)
    (he : conn_method retries = .error e) :
    wait_for_connections conn_method max_retries retries =
      (.error e, retries + 1) := by
  rw [wait_for_connections]
  rw [dif_pos h]
  simp only [he]

lemma wait_conn_break {conn_method : Nat → Except ApiError Nat}
    {max_retries retries : Nat} (h : retries < max_retries)
    (hc : conn_method retries = .ok 0) :
    wait_for_connections conn_method max_retries retries =
      (.ok (), retries + 1) := by
  rw [wait_for_connections]
  rw [dif_pos h]
  simp only [hc]
  simp

lemma wait_conn_step {conn_method : Nat → Except ApiError Nat}
    {max_retries retries : Nat} {c : Nat} (h : retries < max_retries)
    (hc : conn_method retries = .ok c) (hc0 : c ≠ 0) :
    wait_for_connections conn_method max_retries retries =
      wait_for_connections conn_method max_retries (retries + 1) := by
  rw [wait_for_connections]
  rw [dif_pos h]
  simp only [hc]
  rw [if_neg hc0]

lemma wait_enable_exhaust {status_method : Nat → Except ApiError String}
    {max_retries retries : Nat} (h : ¬ retries < max_retries) :
    wait_for_enable status_method max_retries retries = (.ok (), retries) := by
  rw [wait_for_enable]
  rw [dif_neg h]

lemma wait_enable_error {status_method : Nat → Except ApiError String}
    {max_retries retries : Nat} {e : ApiError} (h : retries < max_retries)
    (he : status_method retries = .error e) :
    wait_for_enable status_method max_retries retries =
      (.error e, retries + 1) := by
  rw [wait_for_enable]
  rw [dif_pos h]
  simp only [he]

lemma wait_enable_break {status_method : Nat → Except ApiError String}
    {max_retries retries : Nat} {s : String} (h : retries < max_retries)
    (hs : status_method retries = .ok s) (henb : (s == STATUS_ENABLED) = true) :
    wait_for_enable status_method max_retries retries =
      (.ok (), retries + 1) := by
  rw [wait_for_enable]
  rw [dif_pos h]
  simp only [hs]
  rw [if_pos henb]

lemma wait_enable_step {status_method : Nat → Except ApiError String}
    {max_retries retries : Nat} {s : String} (h : retries < max_retries)
    (hs : status_method retries = .ok s) (henb : ¬ (s == STATUS_ENABLED) = true) :
    wait_for_enable status_method max_retries retries =
      wait_for_enable status_method max_retries (retries + 1) := by
  rw [wait_for_enable]
  rw [dif_pos h]
  simp only [hs]
  rw [if_neg henb]

lemma wait_conn_count_le (conn_method : Nat → Except ApiError Nat)
    (max_retries : Nat) :
    ∀ n retries, max_retries - retries ≤ n → retries ≤ max_retries →
      (wait_for_connections conn_method max_retries retries).2 ≤ max_retries := by
  intro n
  induction n with
  | zero =>
    intro r h1 h2
    have hr : ¬ r < max_retries := by omega
    rw [wait_conn_exhaust hr]
    simpa using h2
  | succ n ih =>
    intro r h1 h2
    by_cases hr : r < max_retries
    · cases hc : conn_method r with
      | error e =>
        rw [wait_conn_error hr hc]
        simpa using (by omega : r + 1 ≤ max_retries)
      | ok c =>
        by_cases hc0 : c = 0
        · subst hc0
          rw [wait_conn_break hr hc]
          simpa using (by omega : r + 1 ≤ max_retries)
        · rw [wait_conn_step hr hc hc0]
          exact ih (r + 1) (by omega) (by omega)
    · rw [wait_conn_exhaust hr]
      simpa using h2

lemma wait_enable_count_le (status_method : Nat → Except ApiError String)
    (max_retries : Nat) :
    ∀ n retries, max_retries - retries ≤ n → retries ≤ max_retries →
      (wait_for_enable status_method max_retries retries).2 ≤ max_retries := by
  intro n
  induction n with
  | zero =>
    intro r h1 h2
    have hr : ¬ r < max_retries := by omega
    rw [wait_enable_exhaust hr]
    simpa using h2
  | succ n ih =>
    intro r h1 h2
    by_cases hr : r < max_retries
    · cases hc : status_method r with
      | error e =>
        rw [wait_enable_error hr hc]
        simpa using (by omega : r + 1 ≤ max_retries)
      | ok s =>
        by_cases hs : (s == STATUS_ENABLED) = true
        · rw [wait_enable_break hr hc hs]
          simpa using (by omega : r + 1 ≤ max_retries)
        · rw [wait_enable_step hr hc hs]
          exact ih (r + 1) (by omega) (by omega)
    · rw [wait_enable_exhaust hr]
      simpa using h2

lemma wait_conn_ok_of {conn_method : Nat → Except ApiError Nat}
    (hall : ∀ k, ∃ c, conn_method k = .ok c) (max_retries : Nat) :
    ∀ n retries, max_retries - retries ≤ n →
      (wait_for_connections conn_method max_retries retries).1 = .ok () := by
  intro n
  induction n with
  | zero =>
    intro r h1
    have hr : ¬ r < max_retries := by omega
    rw [wait_conn_exhaust hr]
  | succ n ih =>
    intro r h1
    by_cases hr : r < max_retries
    · obtain ⟨c, hc⟩ := hall r
      by_cases hc0 : c = 0
      · subst hc0
        rw [wait_conn_break hr hc]
      · rw [wait_conn_step hr hc hc0]
        exact ih (r + 1) (by omega)
    · rw [wait_conn_exhaust hr]

lemma wait_enable_ok_of {status_method : Nat → Except ApiError String}
    (hall : ∀ k, ∃ s, status_method k = .ok s) (max_retries : Nat) :
    ∀ n retries, max_retries - retries ≤ n →
      (wait_for_enable status_method max_retries retries).1 = .ok () := by
  intro n
  induction n with
  | zero =>
    intro r h1
    have hr : ¬ r < max_retries := by omega
    rw [wait_enable_exhaust hr]
  | succ n ih =>
    intro r h1
    by_cases hr : r < max_retries
    · obtain ⟨s, hs⟩ := hall r
      by_cases hsen : (s == STATUS_ENABLED) = true
      · rw [wait_enable_break hr hs hsen]
      · rw [wait_enable_step hr hs hsen]
        exact ih (r + 1) (by omega)
    · rw [wait_enable_exhaust hr]

end Lemmas

/-- C3: for every non-negative max_retries and every sequence of polled
values, each convergence loop, wait-for-zero-connections and
wait-for-enabled, terminates after at most max_retries + 1 observations of
the polled value. Both loops are total functions of their oracles, and the
number of reads each performs is bounded by max_retries + 1. -/
theorem C3_convergence_loops_observation_bound
    (conn_method : Nat → Except ApiError Nat)
    (status_method : Nat → Except ApiError String) (max_retries : Nat) :
    (wait_for_connections conn_method max_retries 0).2 ≤ max_retries + 1 ∧
    (wait_for_enable status_method max_retries 0).2 ≤ max_retries + 1 := by
  constructor
  · have h := wait_conn_count_le conn_method max_retries max_retries 0
      (by omega) (by omega)
    omega
  · have h := wait_enable_count_le status_method max_retries max_retries 0
      (by omega) (by omega)
    omega

/-- C4: for every non-negative max_retries and every sequence of observed
values in which each read returns normally, the polling loops
wait-for-zero-connections and wait-for-enabled return normally without
raising, even when the retry budget is exhausted with the connection count
still above zero or the status still not enabled. -/
theorem C4_polling_loops_never_raise_on_nonconvergence
    (conns : Nat → Nat) (statuses : Nat → String) (max_retries : Nat) :
    (wait_for_connections (fun k => .ok (conns k)) max_retries 0).1 = .ok () ∧
    (wait_for_enable (fun k => .ok (statuses k)) max_retries 0).1 = .ok () := by
  constructor
  · exact wait_conn_ok_of (fun k => ⟨conns k, rfl⟩) max_retries max_retries 0
      (by omega)
  · exact wait_enable_ok_of (fun k => ⟨statuses k, rfl⟩) max_retries
      max_retries 0 (by omega)

/-- C2: the transient-retry wrapper returns the result of the first
successful invocation reached after transient failures within the budget; a
failure whose code is not transient is propagated as soon as it occurs, so a
non-transient error on the first attempt is raised after exactly one
invocation with zero retries; and when every attempt through the budget
fails with a transient code, the error observed once the budget is
exhausted is raised rather than swallowed, after max_retries + 1
invocations. -/
theorem C2_try_repeatedly_retry_semantics {α : Type} (isTransient : Nat → Bool)
    (outcomes : Nat → Except ApiError α) (max_retries : Nat) :
    (∀ k a, k ≤ max_retries →
      (∀ j, j < k → ∃ e, outcomes j = .error e ∧ isTransient e.code = true) →
      outcomes k = .ok a →
      try_repeatedly isTransient outcomes max_retries = (.ok a, k + 1)) ∧
    (∀ k e, k ≤ max_retries →
      (∀ j, j < k → ∃ ej, outcomes j = .error ej ∧ isTransient ej.code = true) →
      outcomes k = .error e → isTransient e.code = false →
      try_repeatedly isTransient outcomes max_retries = (.error e, k + 1)) ∧
    (∀ e,
      (∀ j, j ≤ max_retries →
        ∃ ej, outcomes j = .error ej ∧ isTransient ej.code = true) →
      outcomes max_retries = .error e →
      try_repeatedly isTransient outcomes max_retries =
        (.error e, max_retries + 1)) := by
  refine ⟨?_, ?_, ?_⟩
  · intro k a hk hprev hok
    unfold try_repeatedly
    rw [try_from_reach isTransient outcomes max_retries k 0 k (by omega)
      (by omega) hk (fun j _ hjk => hprev j hjk)]
    exact try_from_ok_at hok
  · intro k e hk hprev herr hnt
    unfold try_repeatedly
    rw [try_from_reach isTransient outcomes max_retries k 0 k (by omega)
      (by omega) hk (fun j _ hjk => hprev j hjk)]
    exact try_from_error_at herr (Or.inl hnt)
  · intro e hall herr
    unfold try_repeatedly
    rw [try_from_reach isTransient outcomes max_retries max_retries 0
      max_retries (by omega) (by omega) le_rfl
      (fun j _ hjk => hall j (by omega))]
    exact try_from_error_at herr (Or.inr le_rfl)

/-- C2 witness: with a transient failure on the first attempt and success on
the second, the wrapper returns the success after two invocations. -/
theorem C2_witness :
    try_repeatedly (fun c => c == 1000) transientThenOk 5 = (.ok true, 2) := by
  refine (C2_try_repeatedly_retry_semantics (fun c => c == 1000)
    transientThenOk 5).1 1 true (by omega) ?_ rfl
  intro j hj
  have hj0 : j = 0 := by omega
  subst hj0
  exact ⟨⟨1000, "retry"⟩, rfl, rfl⟩

/-- C1: when the session opens, the retried disable command eventually
succeeds, every connection read returns a value, the final status read
returns a value and the session close succeeds, disable_server issues the
session start, then the disable attempts, then the connection reads, then
one final status read, then the session end, in that order, and returns
true if and only if that final status read yielded STATUS_DISABLED. -/
theorem C1_disable_server_sequence (isTransient : Nat → Bool)
    (disableOutcomes : Nat → Except ApiError Bool)
    (connReads : Nat → Except ApiError Nat) (max_retries : Nat)
    (sid s : String) (b : Bool)
    (hdis : (try_repeatedly isTransient disableOutcomes max_retries).1 = .ok b)
    (hconn : ∀ k, ∃ n, connReads k = .ok n) :
    disable_server isTransient (.ok sid) (.ok true) disableOutcomes connReads
        (.ok s) max_retries =
      (.ok (STATUS_DISABLED == s),
        Event.sessionStart ::
          (List.replicate
              (try_repeatedly isTransient disableOutcomes max_retries).2
              Event.disableAttempt ++
            List.replicate (wait_for_connections connReads max_retries 0).2
              Event.connRead ++ [Event.statusRead]) ++ [Event.sessionEnd]) ∧
    ((disable_server isTransient (.ok sid) (.ok true) disableOutcomes
        connReads (.ok s) max_retries).1 = .ok true ↔ s = STATUS_DISABLED) := by
  have hw : (wait_for_connections connReads max_retries 0).1 = .ok () :=
    wait_conn_ok_of hconn max_retries max_retries 0 (by omega)
  have hmain : disable_server isTransient (.ok sid) (.ok true) disableOutcomes
      connReads (.ok s) max_retries =
      (.ok (STATUS_DISABLED == s),
        Event.sessionStart ::
          (List.replicate
              (try_repeatedly isTransient disableOutcomes max_retries).2
              Event.disableAttempt ++
            List.replicate (wait_for_connections connReads max_retries 0).2
              Event.connRead ++ [Event.statusRead]) ++ [Event.sessionEnd]) := by
    simp only [disable_server, session_wrap, disable_server_body, hdis, hw]
  refine ⟨hmain, ?_⟩
  rw [hmain]
  simp only [Except.ok.injEq, beq_iff_eq]
  exact eq_comm

/-- C1 witness: with an immediately successful disable command, draining
connection reads and a final status read of disabled, disable_server
returns true. -/
theorem C1_witness :
    (disable_server (fun c => c == 1000) (.ok "sid") (.ok true)
        (fun _ => .ok true) drainingConns (.ok "disabled") 5).1 = .ok true := by
  have hdis : (try_repeatedly (fun c => c == 1000)
      (fun _ => (.ok true : Except ApiError Bool)) 5).1 = .ok true := by
    simp [try_repeatedly, try_from]
  have hconn : ∀ k, ∃ n, drainingConns k = .ok n := fun k => ⟨3 - k, rfl⟩
  exact (C1_disable_server_sequence (fun c => c == 1000) (fun _ => .ok true)
    drainingConns 5 "sid" "disabled" true hdis hconn).2.mpr rfl

/-- C5 counterexample: with a started session, a caller block failing with
the body error and a session-end command failing with the close error,
session_context propagates the close error and not the in-flight body
error: the unguarded send in the finally clause replaces the original
failure, contradicting the claim that the original failure propagates. -/
theorem C5_counterexample :
    (session_wrap (.ok "sid") (.error ⟨2, "close failed"⟩)
        (fun _ => ((.error ⟨1, "body failed"⟩ : Except ApiError Unit),
          []))).1 = .error ⟨2, "close failed"⟩ ∧
    (session_wrap (.ok "sid") (.error ⟨2, "close failed"⟩)
        (fun _ => ((.error ⟨1, "body failed"⟩ : Except ApiError Unit),
          []))).1 ≠ .error ⟨1, "body failed"⟩ := by
  refine ⟨rfl, ?_⟩
  simp [session_wrap]

/-- C5 amended: session_context issues the session-end command on every
exit path on which session-start succeeded, including when the caller block
raises; if session-start never succeeded, no session-end attempt is made;
but a failure of the session-end command replaces an in-flight failure
raised by the caller block, so the close failure, not the original failure,
propagates to the caller. -/
theorem C5_amended_session_context {α : Type}
    (startResult : Except ApiError String) (endResult : Except ApiError Bool)
    (body : String → Except ApiError α × List Event) :
    (∀ sid, startResult = .ok sid →
      Event.sessionEnd ∈ (session_wrap startResult endResult body).2) ∧
    (∀ e, startResult = .error e →
      Event.sessionEnd ∉ (session_wrap startResult endResult body).2 ∧
      (session_wrap startResult endResult body).1 = .error e) ∧
    (∀ sid e1 e2, startResult = .ok sid → (body sid).1 = .error e1 →
      endResult = .error e2 →
      (session_wrap startResult endResult body).1 = .error e2) := by
  refine ⟨?_, ?_, ?_⟩
  · intro sid h
    subst h
    cases endResult <;> simp [session_wrap]
  · intro e h
    subst h
    refine ⟨?_, rfl⟩
    simp [session_wrap]
  · intro sid e1 e2 h h1 h2
    subst h
    subst h2
    simp [session_wrap]

/-- C5 amended witness: on a normal run the session-end command is issued,
and a failing session-end during an in-flight body failure propagates the
close error. -/
theorem C5_amended_witness :
    Event.sessionEnd ∈ (session_wrap (.ok "sid") (.ok true)
      (fun _ => ((.ok () : Except ApiError Unit), []))).2 ∧
    (session_wrap (.ok "sid") (.error ⟨4, "close lost"⟩)
      (fun _ => ((.error ⟨3, "body lost"⟩ : Except ApiError Unit), []))).1 =
      .error ⟨4, "close lost"⟩ := by
  constructor
  · exact (C5_amended_session_context (.ok "sid") (.ok true)
      (fun _ => ((.ok () : Except ApiError Unit), []))).1 "sid" rfl
  · exact (C5_amended_session_context (.ok "sid") (.error ⟨4, "close lost"⟩)
      (fun _ => ((.error ⟨3, "body lost"⟩ : Except ApiError Unit), []))).2.2
      "sid" ⟨3, "body lost"⟩ ⟨4, "close lost"⟩ rfl rfl rfl

/-- C6: with a body that completes normally, the disabled-node scope helper
issues exactly one disable operation before the body and exactly one enable
operation after it when the entry status is enabled, and issues no disable
or enable operations at all when the entry status is disabled or down. -/
theorem C6_disabled_node_context_commands (entryStatus : String)
    (disableResult enableResult : Except ApiError Bool) :
    (∀ b, entryStatus = STATUS_ENABLED → disableResult = .ok b →
      (disabled_node_context entryStatus disableResult enableResult
        (.ok ())).2 = [.statusCheck, .disableOp, .bodyRun, .enableOp]) ∧
    (entryStatus = STATUS_DISABLED ∨ entryStatus = STATUS_DOWN →
      (disabled_node_context entryStatus disableResult enableResult
        (.ok ())).2 = [.statusCheck, .bodyRun]) := by
  constructor
  · intro b hs hd
    subst hs
    subst hd
    cases enableResult <;> simp [disabled_node_context]
  · intro hs
    rcases hs with hs | hs <;> subst hs <;> rfl

/-- C6 witness: concrete runs for an enabled entry status and for a
disabled entry status. -/
theorem C6_witness :
    (disabled_node_context "enabled" (.ok true) (.ok true) (.ok ())).2 =
      [.statusCheck, .disableOp, .bodyRun, .enableOp] ∧
    (disabled_node_context "disabled" (.ok true) (.ok true) (.ok ())).2 =
      [.statusCheck, .bodyRun] :=
  ⟨(C6_disabled_node_context_commands "enabled" (.ok true) (.ok true)).1
      true rfl rfl,
    (C6_disabled_node_context_commands "disabled" (.ok true) (.ok true)).2
      (Or.inl rfl)⟩

/-- C10: when the entry status is enabled, the entry disable operation
succeeded and the scope body raises, the exception propagates out of the
disabled-node scope helper and no enable operation is issued on exit: the
helper ran the status check, the disable and the body, and nothing after. -/
theorem C10_disabled_node_context_body_raises (entryStatus : String)
    (disableResult enableResult : Except ApiError Bool) (e : ApiError)
    (b : Bool) (hs : entryStatus = STATUS_ENABLED)
    (hd : disableResult = .ok b) :
    (disabled_node_context entryStatus disableResult enableResult
      (.error e)).1 = .error e ∧
    (disabled_node_context entryStatus disableResult enableResult
      (.error e)).2 = [.statusCheck, .disableOp, .bodyRun] ∧
    CtxEvent.enableOp ∉
      (disabled_node_context entryStatus disableResult enableResult
        (.error e)).2 := by
  subst hs
  subst hd
  refine ⟨rfl, rfl, ?_⟩
  have h2 : (disabled_node_context STATUS_ENABLED (.ok b) enableResult
      (.error e)).2 = [.statusCheck, .disableOp, .bodyRun] := rfl
  rw [h2]
  decide

/-- C10 witness: a concrete raising body with an enabled entry status. -/
theorem C10_witness :
    (disabled_node_context "enabled" (.ok true) (.ok true)
      (.error ⟨7, "body boom"⟩)).1 = .error ⟨7, "body boom"⟩ ∧
    CtxEvent.enableOp ∉ (disabled_node_context "enabled" (.ok true) (.ok true)
      (.error ⟨7, "body boom"⟩)).2 := by
  have h := C10_disabled_node_context_body_raises "enabled" (.ok true)
    (.ok true) ⟨7, "body boom"⟩ true rfl rfl
  exact ⟨h.1, h.2.2⟩

/-- C7: with max_retries zero and an opened session, disable_server issues
the disable command exactly once, even when that single attempt fails with
a transient error, performs zero connection polls, and when the single
disable attempt, the status read and the session close succeed it
immediately reports the comparison of the current status against
STATUS_DISABLED. -/
theorem C7_disable_server_zero_retries (isTransient : Nat → Bool)
    (sid : String) (endResult : Except ApiError Bool)
    (disableOutcomes : Nat → Except ApiError Bool)
    (connReads : Nat → Except ApiError Nat)
    (statusResult : Except ApiError String) :
    ((disable_server isTransient (.ok sid) endResult disableOutcomes
        connReads statusResult 0).2.count Event.disableAttempt = 1 ∧
      (disable_server isTransient (.ok sid) endResult disableOutcomes
        connReads statusResult 0).2.count Event.connRead = 0) ∧
    (∀ b s, disableOutcomes 0 = .ok b → statusResult = .ok s →
      endResult = .ok true →
      (disable_server isTransient (.ok sid) endResult disableOutcomes
        connReads statusResult 0).1 = .ok (STATUS_DISABLED == s)) := by
  have hd2 : (try_repeatedly isTransient disableOutcomes 0).2 = 1 :=
    try_from_count_at_budget
  have hw : wait_for_connections connReads 0 0 = (.ok (), 0) :=
    wait_conn_exhaust (by omega)
  constructor
  · cases hd1 : (try_repeatedly isTransient disableOutcomes 0).1 with
    | error e =>
      cases endResult <;>
        simp [disable_server, session_wrap, disable_server_body, hd1, hd2,
          hw, List.count_cons, List.count_append]
    | ok b =>
      cases statusResult <;> cases endResult <;>
        simp [disable_server, session_wrap, disable_server_body, hd1, hd2,
          hw, List.count_cons, List.count_append]
  · intro b s hb hs he
    have hd1 : (try_repeatedly isTransient disableOutcomes 0).1 = .ok b := by
      rw [try_repeatedly, try_from_ok_at hb]
    subst hs
    subst he
    simp [disable_server, session_wrap, disable_server_body, hd1, hw]

/-- C7 witness: with max_retries zero, a successful disable and a status
read of enabled, disable_server performs no connection polls and reports
false. -/
theorem C7_witness :
    (disable_server (fun c => c == 1000) (.ok "sid") (.ok true)
      (fun _ => .ok true) drainingConns (.ok "enabled") 0).1 = .ok false ∧
    (disable_server (fun c => c == 1000) (.ok "sid") (.ok true)
      (fun _ => .ok true) drainingConns (.ok "enabled") 0).2.count
        Event.connRead = 0 := by
  have h := C7_disable_server_zero_retries (fun c => c == 1000) "sid"
    (.ok true) (fun _ => .ok true) drainingConns (.ok "enabled")
  refine ⟨?_, h.1.2⟩
  have hres := h.2 true "enabled" rfl rfl rfl
  rw [hres]
  rfl

/-- C8: for every parsed node-status response, when the server key is
present the command returns exactly STATUS_ENABLED or STATUS_DISABLED and
never STATUS_DOWN, and when the server key is absent but the response
carries a fail envelope the command raises the node-status failure carrying
the stripped remote message and the remote code, not the
malformed-response condition. -/
theorem C8_node_status_send_classification (json : NodeStatusResponse) :
    (∀ b, json.server = some b →
      node_status_send json =
        .ok (if b then STATUS_ENABLED else STATUS_DISABLED) ∧
      (node_status_send json = .ok STATUS_ENABLED ∨
        node_status_send json = .ok STATUS_DISABLED) ∧
      node_status_send json ≠ .ok STATUS_DOWN) ∧
    (∀ resp, json.server = none → json.response = some resp →
      resp.status = "fail" →
      node_status_send json =
        .error (.nodeStatusFailure resp.errMsg.trim resp.errCode) ∧
      node_status_send json ≠ .error .malformedResponse) := by
  constructor
  · intro b hb
    have h : node_status_send json =
        .ok (if b then STATUS_ENABLED else STATUS_DISABLED) := by
      cases b <;> simp [node_status_send, hb]
    refine ⟨h, ?_, ?_⟩
    · rw [h]
      cases b
      · exact Or.inr (by simp)
      · exact Or.inl (by simp)
    · rw [h]
      cases b <;> simp [STATUS_ENABLED, STATUS_DISABLED, STATUS_DOWN]
  · intro resp hs hr hfail
    have h : node_status_send json =
        .error (.nodeStatusFailure resp.errMsg.trim resp.errCode) := by
      simp [node_status_send, hs, hr, extract_error_message, hfail]
    refine ⟨h, ?_⟩
    rw [h]
    simp

/-- C8 witness: a response carrying the server key yields enabled, and a
response without it but with a fail envelope yields the node-status failure
with the stripped message and the code. -/
theorem C8_witness :
    node_status_send ⟨some true, none⟩ = .ok STATUS_ENABLED ∧
    node_status_send ⟨none, some ⟨"fail", " no such node ", 1023⟩⟩ =
      .error (.nodeStatusFailure (" no such node ".trim) 1023) := by
  constructor
  · have h := (C8_node_status_send_classification ⟨some true, none⟩).1
      true rfl
    simpa using h.1
  · exact ((C8_node_status_send_classification
      ⟨none, some ⟨"fail", " no such node ", 1023⟩⟩).2
      ⟨"fail", " no such node ", 1023⟩ rfl rfl rfl).1

/-- C9: for every scheme-host, session ID and server name, the disable
request and the enable request share the URL and the HTTP method, and their
parameter lists, which carry the same action identifier, agree except that
the status parameter carries one for enable and zero for disable. -/
theorem C9_enable_disable_request_agreement
    (scheme_host session_id server : String) :
    (node_disable_request scheme_host session_id server).url =
      (node_enable_request scheme_host session_id server).url ∧
    (node_disable_request scheme_host session_id server).httpMethod =
      (node_enable_request scheme_host session_id server).httpMethod ∧
    (node_disable_request scheme_host session_id server).params =
      (node_enable_request scheme_host session_id server).params.map
        (fun kv => if kv.1 == "status" then (kv.1, "0") else kv) ∧
    (node_enable_request scheme_host session_id server).params.lookup
      "status" = some "1" ∧
    (node_disable_request scheme_host session_id server).params.lookup
      "status" = some "0" := by
  refine ⟨rfl, rfl, ?_, ?_, ?_⟩ <;>
    simp [node_enable_request, node_disable_request, get_base_query_params,
      List.lookup]

end Warthog
